import Mathlib

/-!
# Verification of `src/OpenSage.Game/Assets/Shaders/Common.h`

A shallow embedding of the shared GLSL shader header `Common.h` from the
OpenSAGE repository.  GLSL `float` values are modelled as exact rationals
(`ℚ`); `vec2`/`vec3`/`vec4` become records of rationals, and `mat4` is a
record of four column vectors, matching GLSL's column-major convention in
which `m * v = v.x • m[0] + v.y • m[1] + v.z • m[2] + v.w • m[3]`.

Every definition below is translated directly from the source file; the
source line it comes from is noted on each one.
-/

/-- GLSL `vec2`: a pair of floats, modelled as rationals. -/
@[ext] structure Vec2 where
  x : ℚ
  y : ℚ
  deriving DecidableEq

/-- GLSL `vec3`: a triple of floats, modelled as rationals. -/
@[ext] structure Vec3 where
  x : ℚ
  y : ℚ
  z : ℚ
  deriving DecidableEq

/-- GLSL `vec4`: a quadruple of floats, modelled as rationals. -/
@[ext] structure Vec4 where
  x : ℚ
  y : ℚ
  z : ℚ
  w : ℚ
  deriving DecidableEq

/-- GLSL `mat4`, stored as its four columns `m[0] .. m[3]` (column-major,
as in GLSL).  For standard affine transforms the translation lives in the
fourth column `c3`. -/
@[ext] structure Mat4 where
  c0 : Vec4
  c1 : Vec4
  c2 : Vec4
  c3 : Vec4
  deriving DecidableEq

/-- The `xyz` swizzle of a `vec4`. -/
def Vec4.xyz (v : Vec4) : Vec3 :=
  Vec3.mk v.x v.y v.z

/-- GLSL matrix-vector product `m * v` for a `mat4` and a `vec4`:
component `i` of the result is `sum_j m[j][i] * v[j]`. -/
def mat4MulVec4 (m : Mat4) (v : Vec4) : Vec4 :=
  Vec4.mk
    (m.c0.x * v.x + m.c1.x * v.y + m.c2.x * v.z + m.c3.x * v.w)
    (m.c0.y * v.x + m.c1.y * v.y + m.c2.y * v.z + m.c3.y * v.w)
    (m.c0.z * v.x + m.c1.z * v.y + m.c2.z * v.z + m.c3.z * v.w)
    (m.c0.w * v.x + m.c1.w * v.y + m.c2.w * v.z + m.c3.w * v.w)

/-- GLSL `dot` on `vec4`. -/
def dot4 (a b : Vec4) : ℚ :=
  a.x * b.x + a.y * b.y + a.z * b.z + a.w * b.w

/-- GLSL builtin `clamp(x, minVal, maxVal) = min(max(x, minVal), maxVal)`
on scalars. -/
def glClamp (v lo hi : ℚ) : ℚ :=
  min (max v lo) hi

/-- GLSL builtin `clamp` on `vec3`, applied componentwise. -/
def glClamp3 (v lo hi : Vec3) : Vec3 :=
  Vec3.mk (glClamp v.x lo.x hi.x) (glClamp v.y lo.y hi.y) (glClamp v.z lo.z hi.z)

/-- `#define GLOBAL_CONSTANTS_RESOURCE_SET 0` (Common.h line 5). -/
def GLOBAL_CONSTANTS_RESOURCE_SET : Nat := 0

/-- `#define PASS_CONSTANTS_RESOURCE_SET 1` (Common.h line 6). -/
def PASS_CONSTANTS_RESOURCE_SET : Nat := 1

/-- `#define MATERIAL_CONSTANTS_RESOURCE_SET 2` (Common.h line 7). -/
def MATERIAL_CONSTANTS_RESOURCE_SET : Nat := 2

/-- `#define RENDER_ITEM_CONSTANTS_RESOURCE_SET 3` (Common.h line 8). -/
def RENDER_ITEM_CONSTANTS_RESOURCE_SET : Nat := 3

/-- `#define WATER_ANIMATION_CONSTANTS_RESOURCE_SET 4` (Common.h line 9). -/
def WATER_ANIMATION_CONSTANTS_RESOURCE_SET : Nat := 4

/-- `struct GlobalConstantsType` (Common.h lines 11-23). -/
structure GlobalConstantsType where
  CameraPosition : Vec3
  TimeInSeconds : ℚ
  ViewProjection : Mat4
  ClippingPlane1 : Vec4
  ClippingPlane2 : Vec4
  HasClippingPlane1 : Bool
  HasClippingPlane2 : Bool
  ViewportSize : Vec2

/-- `bool FailsAlphaTest(float alpha)` (Common.h lines 30-34):
`return alpha < 0.37647f;` — the threshold is the source literal
`0.37647`, which the adjacent comment equates with `0x60 / 0xFF`. -/
def FailsAlphaTest (alpha : ℚ) : Bool :=
  decide (alpha < (0.37647 : ℚ))

/-- `vec3 TransformNormal(vec3 v, mat4 m)` (Common.h lines 36-39):
`return (m * vec4(v, 0)).xyz;`. -/
def TransformNormal (v : Vec3) (m : Mat4) : Vec3 :=
  (mat4MulVec4 m (Vec4.mk v.x v.y v.z 0)).xyz

/-- `float saturate(float v)` (Common.h lines 41-44):
`return clamp(v, 0.0, 1.0);`. -/
def saturate (v : ℚ) : ℚ :=
  glClamp v 0 1

/-- `vec3 saturate(vec3 v)` (Common.h lines 46-49), the vector overload:
`return clamp(v, vec3(0, 0, 0), vec3(1, 1, 1));`. -/
def saturate3 (v : Vec3) : Vec3 :=
  glClamp3 v (Vec3.mk 0 0 0) (Vec3.mk 1 1 1)

/-- `float CalculateClippingPlane(vec3 position, bool hasClippingPlane, vec4 plane)`
(Common.h lines 51-58): when enabled, `return dot(vec4(position, 1), plane);`
otherwise `return 1;`. -/
def CalculateClippingPlane (position : Vec3) (hasClippingPlane : Bool)
    (plane : Vec4) : ℚ :=
  if hasClippingPlane then
    dot4 (Vec4.mk position.x position.y position.z 1) plane
  else
    1

/-- The two hardware clip distances `gl_ClipDistance[0]` and
`gl_ClipDistance[1]` written by the `DO_CLIPPING` macro. -/
@[ext] structure ClipState where
  clipDistance0 : ℚ
  clipDistance1 : ℚ
  deriving DecidableEq

/-- `#define DO_CLIPPING(position)` (Common.h lines 62-64): the macro
assigns `gl_ClipDistance[0] = 1.0; gl_ClipDistance[1] = 1.0;`, modelled as
a state transformer on the pair of clip distances. -/
def DO_CLIPPING (position : Vec3) (s : ClipState) : ClipState :=
  ClipState.mk 1 1

/-- The pure-translation `mat4` with translation vector `t`: identity
linear part in the first three columns, `(t, 1)` in the fourth column. -/
def translationMatrix (t : Vec3) : Mat4 :=
  Mat4.mk (Vec4.mk 1 0 0 0) (Vec4.mk 0 1 0 0) (Vec4.mk 0 0 1 0)
    (Vec4.mk t.x t.y t.z 1)

/-! ## Helper lemmas about `saturate` -/

lemma saturate_of_neg {x : ℚ} (h : x < 0) : saturate x = 0 := by
  unfold saturate glClamp
  rw [max_eq_right h.le]
  exact min_eq_left zero_le_one

lemma saturate_of_one_lt {x : ℚ} (h : 1 < x) : saturate x = 1 := by
  unfold saturate glClamp
  rw [max_eq_left (le_of_lt (lt_trans zero_lt_one h))]
  exact min_eq_right h.le

lemma saturate_of_mem {x : ℚ} (h0 : 0 ≤ x) (h1 : x ≤ 1) : saturate x = x := by
  unfold saturate glClamp
  rw [max_eq_left h0]
  exact min_eq_left h1

lemma saturate_nonneg (x : ℚ) : 0 ≤ saturate x :=
  le_min (le_max_right x 0) zero_le_one

lemma saturate_le_one (x : ℚ) : saturate x ≤ 1 :=
  min_le_right _ 1

lemma saturate_idem (x : ℚ) : saturate (saturate x) = saturate x :=
  saturate_of_mem (saturate_nonneg x) (saturate_le_one x)

lemma saturate3_eq (v : Vec3) :
    saturate3 v = Vec3.mk (saturate v.x) (saturate v.y) (saturate v.z) :=
  rfl

/-! ## Claim theorems -/

/-- C1 (counterexample): the claim says every `alpha` in `[0, 0x60/0xFF)`
fails the alpha test, but the source threshold is the literal `0.37647`,
which is strictly below `0x60/0xFF = 96/255`; at `alpha = 0.37647` itself,
`alpha` lies in `[0, 96/255)` yet `FailsAlphaTest` returns `false`. -/
theorem FailsAlphaTest_claim_counterexample :
    (0 : ℚ) ≤ (0.37647 : ℚ) ∧ (0.37647 : ℚ) < 96 / 255 ∧
      FailsAlphaTest (0.37647 : ℚ) = false :=
  ⟨by norm_num, by norm_num, by simp [FailsAlphaTest]⟩

/-- C1 (amended): `FailsAlphaTest alpha` is `true` exactly when
`alpha < 0.37647`, the literal written in the source; since
`0.37647 < 0x60/0xFF`, the result at the exact value `0x60/0xFF = 96/255`
is still `false` (the comparison is strict less-than). -/
theorem FailsAlphaTest_amended :
    (∀ alpha : ℚ, FailsAlphaTest alpha = true ↔ alpha < (0.37647 : ℚ)) ∧
      FailsAlphaTest (96 / 255) = false ∧ (0.37647 : ℚ) < 96 / 255 :=
  ⟨fun alpha => by simp [FailsAlphaTest],
   by simp [FailsAlphaTest]; norm_num,
   by norm_num⟩

/-- C2: with the enable flag `false`, `CalculateClippingPlane` returns the
neutral value `1` for every position and every plane vector. -/
theorem CalculateClippingPlane_disabled (p : Vec3) (anyPlane : Vec4) :
    CalculateClippingPlane p false anyPlane = 1 :=
  rfl

/-- C3: with the enable flag `true`, `CalculateClippingPlane` returns the
signed plane-equation distance `dot((p, 1), plane)`; in particular
`p = (0,0,0)` with `plane = (0,1,0,-5)` yields `-5`. -/
theorem CalculateClippingPlane_enabled :
    (∀ (p : Vec3) (plane : Vec4),
        CalculateClippingPlane p true plane =
          dot4 (Vec4.mk p.x p.y p.z 1) plane) ∧
      CalculateClippingPlane (Vec3.mk 0 0 0) true (Vec4.mk 0 1 0 (-5)) = -5 :=
  ⟨fun _ _ => rfl, by norm_num [CalculateClippingPlane, dot4]⟩

/-- C4: `TransformNormal v m` is the `xyz` of `m * (v, 0)`; the fourth
column of `m` (the translation of an affine transform) never affects the
result, and a pure-translation matrix leaves the direction unchanged. -/
theorem TransformNormal_spec :
    (∀ (v : Vec3) (m : Mat4),
        TransformNormal v m =
          (mat4MulVec4 m (Vec4.mk v.x v.y v.z 0)).xyz) ∧
      (∀ (v : Vec3) (c0 c1 c2 c3 c3' : Vec4),
        TransformNormal v (Mat4.mk c0 c1 c2 c3) =
          TransformNormal v (Mat4.mk c0 c1 c2 c3')) ∧
      (∀ (v t : Vec3), TransformNormal v (translationMatrix t) = v) := by
  refine ⟨fun v m => rfl, fun v c0 c1 c2 c3 c3' => ?_, fun v t => ?_⟩
  · simp only [TransformNormal, mat4MulVec4, Vec4.xyz, Vec3.mk.injEq]
    refine ⟨by ring, by ring, by ring⟩
  · ext <;> simp [TransformNormal, mat4MulVec4, Vec4.xyz, translationMatrix]

/-- C5: `saturate` returns `0` below `0`, `1` above `1`, and its argument
unchanged on `[0, 1]`; the vector overload `saturate3` acts as `saturate`
independently in each of its three components. -/
theorem saturate_spec :
    (∀ x : ℚ, x < 0 → saturate x = 0) ∧
      (∀ x : ℚ, 1 < x → saturate x = 1) ∧
      (∀ x : ℚ, 0 ≤ x → x ≤ 1 → saturate x = x) ∧
      (∀ v : Vec3,
        saturate3 v = Vec3.mk (saturate v.x) (saturate v.y) (saturate v.z)) :=
  ⟨fun _ h => saturate_of_neg h, fun _ h => saturate_of_one_lt h,
   fun _ h0 h1 => saturate_of_mem h0 h1, saturate3_eq⟩

/-- C5 witness: the three clamp regimes at concrete inputs. -/
theorem saturate_spec_witness :
    saturate (-1) = 0 ∧ saturate 2 = 1 ∧ saturate (1 / 2) = 1 / 2 :=
  ⟨saturate_spec.1 (-1) (by norm_num), saturate_spec.2.1 2 (by norm_num),
   saturate_spec.2.2.1 (1 / 2) (by norm_num) (by norm_num)⟩

/-- C6: the `DO_CLIPPING` macro sets both hardware clip distances to the
constant `1`, for every position argument and every prior state — its
effect is independent of its argument, so every fragment passes hardware
clipping. -/
theorem DO_CLIPPING_neutered :
    ∀ (position : Vec3) (s : ClipState),
      DO_CLIPPING position s = ClipState.mk 1 1 :=
  fun _ _ => rfl

/-- C7: the five resource-set constants are `0, 1, 2, 3, 4` and are
pairwise distinct. -/
theorem resource_set_constants :
    GLOBAL_CONSTANTS_RESOURCE_SET = 0 ∧
      PASS_CONSTANTS_RESOURCE_SET = 1 ∧
      MATERIAL_CONSTANTS_RESOURCE_SET = 2 ∧
      RENDER_ITEM_CONSTANTS_RESOURCE_SET = 3 ∧
      WATER_ANIMATION_CONSTANTS_RESOURCE_SET = 4 ∧
      [GLOBAL_CONSTANTS_RESOURCE_SET, PASS_CONSTANTS_RESOURCE_SET,
        MATERIAL_CONSTANTS_RESOURCE_SET, RENDER_ITEM_CONSTANTS_RESOURCE_SET,
        WATER_ANIMATION_CONSTANTS_RESOURCE_SET].Nodup := by
  decide

/-- C8: every function of the header is deterministic — equal arguments
give equal results (each is a total Lean function of its parameters alone,
so it reads and writes no outside state, the formal content of purity in
this embedding). -/
theorem shader_functions_deterministic :
    (∀ a b : ℚ, a = b → FailsAlphaTest a = FailsAlphaTest b) ∧
      (∀ (v w : Vec3) (m n : Mat4),
        v = w → m = n → TransformNormal v m = TransformNormal w n) ∧
      (∀ a b : ℚ, a = b → saturate a = saturate b) ∧
      (∀ v w : Vec3, v = w → saturate3 v = saturate3 w) ∧
      (∀ (p q : Vec3) (c d : Bool) (pl ql : Vec4),
        p = q → c = d → pl = ql →
          CalculateClippingPlane p c pl = CalculateClippingPlane q d ql) := by
  refine ⟨fun a b h => ?_, fun v w m n h1 h2 => ?_, fun a b h => ?_,
    fun v w h => ?_, fun p q c d pl ql h1 h2 h3 => ?_⟩
  · rw [h]
  · rw [h1, h2]
  · rw [h]
  · rw [h]
  · rw [h1, h2, h3]

/-- C8 witness: determinism applied at concrete equal arguments for each
of the five functions. -/
theorem shader_functions_deterministic_witness :
    FailsAlphaTest 0 = FailsAlphaTest 0 ∧
      TransformNormal (Vec3.mk 1 2 3) (translationMatrix (Vec3.mk 4 5 6)) =
        TransformNormal (Vec3.mk 1 2 3) (translationMatrix (Vec3.mk 4 5 6)) ∧
      saturate 0 = saturate 0 ∧
      saturate3 (Vec3.mk 0 0 0) = saturate3 (Vec3.mk 0 0 0) ∧
      CalculateClippingPlane (Vec3.mk 0 0 0) true (Vec4.mk 0 1 0 (-5)) =
        CalculateClippingPlane (Vec3.mk 0 0 0) true (Vec4.mk 0 1 0 (-5)) :=
  ⟨shader_functions_deterministic.1 0 0 rfl,
   shader_functions_deterministic.2.1 _ _ _ _ rfl rfl,
   shader_functions_deterministic.2.2.1 0 0 rfl,
   shader_functions_deterministic.2.2.2.1 _ _ rfl,
   shader_functions_deterministic.2.2.2.2 _ _ _ _ _ _ rfl rfl rfl⟩

/-- C9: `saturate` and `saturate3` are idempotent, and every output of
`saturate` already lies in `[0, 1]`. -/
theorem saturate_idempotent :
    (∀ x : ℚ, saturate (saturate x) = saturate x) ∧
      (∀ v : Vec3, saturate3 (saturate3 v) = saturate3 v) ∧
      (∀ x : ℚ, 0 ≤ saturate x ∧ saturate x ≤ 1) := by
  refine ⟨saturate_idem, fun v => ?_,
    fun x => ⟨saturate_nonneg x, saturate_le_one x⟩⟩
  rw [saturate3_eq, saturate3_eq]
  simp only [saturate_idem]

/-- C10: `TransformNormal` is linear in its vector argument: it sends the
zero vector to zero, is additive, and commutes with scalar multiples. -/
theorem TransformNormal_linear :
    (∀ m : Mat4, TransformNormal (Vec3.mk 0 0 0) m = Vec3.mk 0 0 0) ∧
      (∀ (a b : Vec3) (m : Mat4),
        TransformNormal (Vec3.mk (a.x + b.x) (a.y + b.y) (a.z + b.z)) m =
          Vec3.mk
            ((TransformNormal a m).x + (TransformNormal b m).x)
            ((TransformNormal a m).y + (TransformNormal b m).y)
            ((TransformNormal a m).z + (TransformNormal b m).z)) ∧
      (∀ (c : ℚ) (a : Vec3) (m : Mat4),
        TransformNormal (Vec3.mk (c * a.x) (c * a.y) (c * a.z)) m =
          Vec3.mk (c * (TransformNormal a m).x) (c * (TransformNormal a m).y)
            (c * (TransformNormal a m).z)) := by
  refine ⟨fun m => ?_, fun a b m => ?_, fun c a m => ?_⟩ <;>
    · simp only [TransformNormal, mat4MulVec4, Vec4.xyz, Vec3.mk.injEq]
      refine ⟨by ring, by ring, by ring⟩
